import Mathlib

/-!
Verification of `decode_shortcut.py`, a decoder for Apple `.shortcut`
container files.  The script extracts an embedded binary-plist payload from
one of two wrapper formats (a CMS signed-data envelope, or an AEA1 container
holding an LZFSE-compressed block), decodes it with `plistlib`, and renders a
human-readable action list.

The embedding models bytes as `List Nat` (each element a byte value), the
external collaborators (`asn1crypto`'s ASN.1 parser, `lzfse.decompress`,
`plistlib.loads`, Python's builtin `str`) as explicit function parameters,
and Python exceptions as `Except` results carrying the raised message.
-/

/-- `bytes.find(pat, start)` helper: try positions `i, i+1, ...` for `fuel`
steps, returning the first position where `pat` is a prefix of `d.drop i`. -/
def findFromAux (d p : List Nat) : Nat → Nat → Option Nat
  | _, 0 => none
  | i, fuel+1 =>
    if p.isPrefixOf (d.drop i) then some i else findFromAux d p (i+1) fuel

/-- Model of Python `bytes.find(pat, start)` (restricted to a start bound and
returning `none` instead of `-1`): the least index `j ≥ start` at which `pat`
occurs in `d`, if any.  For `start > d.length` no position matches, as in
Python. -/
def findFrom (d p : List Nat) (start : Nat) : Option Nat :=
  if start ≤ d.length then findFromAux d p start (d.length + 1 - start) else none

/- ## CMS payload extraction (`extract_cms_payload`, lines 31-47) -/

/-- The `encap_content_info` field of a parsed CMS signed-data structure:
`content` is `none` when the optional encapsulated content is absent,
otherwise the octet-string bytes (`.native`). -/
structure EncapContentInfo where
  content : Option (List Nat)

/-- The signed-data structure reached via `content_info['content']`. -/
structure SignedData where
  encap_content_info : EncapContentInfo

/-- A parsed top-level CMS ContentInfo, as produced by
`cms.ContentInfo.load`: `content_type` is the `.native` string of the
declared content type. -/
structure ContentInfo where
  content_type : String
  content : SignedData

/-- The distinct failure modes of `extract_cms_payload`.  `malformedAsn1`
stands for any exception raised by the external `asn1crypto` parser itself
(carrying its message). -/
inductive CmsError where
  | malformedAsn1 (msg : String)
  | notCmsFormat
  | emptyEncapsulatedContent
deriving DecidableEq

/-- The Python exception message carried by each CMS failure (the `str` of
the raised `ValueError`). -/
def CmsError.message : CmsError → String
  | .malformedAsn1 m => m
  | .notCmsFormat => "File is not CMS signedData"
  | .emptyEncapsulatedContent => "Shortcut contains no embedded plist content"

/-- `extract_cms_payload` (lines 31-47).  `cmsLoad` models the external
`cms.ContentInfo.load` applied to the file's bytes (failing with the
parser's own exception message on structurally malformed ASN.1). -/
def extract_cms_payload
    (cmsLoad : List Nat → Except String ContentInfo)
    (data : List Nat) : Except CmsError (List Nat) :=
  match cmsLoad data with
  | .error e => .error (.malformedAsn1 e)
  | .ok content_info =>
    if content_info.content_type ≠ "signed_data" then
      .error .notCmsFormat
    else
      match content_info.content.encap_content_info.content with
      | none => .error .emptyEncapsulatedContent
      | some bs => .ok bs

/- ## AEA1/LZFSE payload extraction (`extract_aea1_lzfse_payload`, lines 50-85) -/

/-- The 4-byte magic `b"AEA1"`. -/
def AEA1_MAGIC : List Nat := [65, 69, 65, 49]

/-- The 3-byte LZFSE block magic `b"bvx"`. -/
def LZFSE_MAGIC : List Nat := [98, 118, 120]

/-- The 8-byte binary-plist magic `b"bplist00"`. -/
def BPLIST_MAGIC : List Nat := [98, 112, 108, 105, 115, 116, 48, 48]

/-- Little-endian `int.from_bytes`. -/
def leBytesToNat : List Nat → Nat
  | [] => 0
  | b :: bs => b + 256 * leBytesToNat bs

/-- `cert_len = int.from_bytes(data[8:12], "little")` (line 66). -/
def aeaCertLen (data : List Nat) : Nat :=
  leBytesToNat ((data.drop 8).take 4)

/-- `payload_start = 12 + cert_len` (line 70). -/
def aeaPayloadStart (data : List Nat) : Nat :=
  12 + aeaCertLen data

/-- The distinct failure modes of `extract_aea1_lzfse_payload`, one per
raise site, plus `decompressionFailed` for an exception propagated out of
the external `lzfse.decompress`.  `truncatedHeader` appears in the
documented error taxonomy only: the code has no corresponding raise site,
and the theorems below show it is never produced. -/
inductive AeaError where
  | missingDependency
  | notSealedArchiveFormat
  | truncatedHeader
  | compressedBlockNotFound
  | decompressionFailed (msg : String)
  | embeddedDocumentNotFound
deriving DecidableEq

/-- The Python exception message carried by each AEA1 failure.
`truncatedHeader` is never produced by the code, so its message is a
placeholder for the spec-only taxonomy entry. -/
def AeaError.message : AeaError → String
  | .missingDependency => "Missing dependency: install lzfse to parse AEA1 shortcuts"
  | .notSealedArchiveFormat => "Not an AEA1/LZFSE shortcut"
  | .truncatedHeader => "Truncated AEA1 header"
  | .compressedBlockNotFound => "LZFSE section not found inside AEA1 container"
  | .decompressionFailed m => m
  | .embeddedDocumentNotFound => "Embedded plist not found after decompressing AEA1 payload"

/-- `extract_aea1_lzfse_payload` (lines 50-85).  `lzfse` is `none` when the
`lzfse` module failed to import (line 25-28), otherwise `some decompress`
where `decompress` models `lzfse.decompress` (failing with the exception it
raises on corrupt input). -/
def extract_aea1_lzfse_payload
    (lzfse : Option (List Nat → Except String (List Nat)))
    (data : List Nat) : Except AeaError (List Nat) :=
  match lzfse with
  | none => .error .missingDependency
  | some decompress =>
    if ¬ AEA1_MAGIC.isPrefixOf data then
      .error .notSealedArchiveFormat
    else
      match findFrom data LZFSE_MAGIC (aeaPayloadStart data) with
      | none => .error .compressedBlockNotFound
      | some magic_index =>
        match decompress (data.drop magic_index) with
        | .error e => .error (.decompressionFailed e)
        | .ok decompressed =>
          match findFrom decompressed BPLIST_MAGIC 0 with
          | none => .error .embeddedDocumentNotFound
          | some plist_index => .ok (decompressed.drop plist_index)

/- ## Plist values and the action renderer (`render_action_list`, lines 102-121) -/

/-- A decoded plist value, as produced by `plistlib.loads`: a generic value
tree of dictionaries (entry lists in stored key order, as Python dicts
preserve insertion order), arrays, and scalar leaves. -/
inductive PValue where
  | str (s : String)
  | int (n : Int)
  | bool (b : Bool)
  | data (bs : List Nat)
  | array (items : List PValue)
  | dict (entries : List (String × PValue))

/-- Python truthiness of a plist value: empty collections, empty strings,
zero and `False` are falsy. -/
def PValue.truthy : PValue → Bool
  | .str s => s ≠ ""
  | .int n => n ≠ 0
  | .bool b => b
  | .data bs => ¬ bs.isEmpty
  | .array xs => ¬ xs.isEmpty
  | .dict es => ¬ es.isEmpty

/-- The entries of a dictionary value (non-dictionaries have none). -/
def PValue.asDict : PValue → List (String × PValue)
  | .dict es => es
  | _ => []

/-- The items of an array value (non-arrays have none). -/
def PValue.asArray : PValue → List PValue
  | .array xs => xs
  | _ => []

/-- Python `dict.get(k)`: the value stored under the first matching key, or
`None` (`none`) when absent. -/
def dictGet (es : List (String × PValue)) (k : String) : Option PValue :=
  (es.find? (fun kv => kv.1 == k)).map (fun kv => kv.2)

/-- Python `dict.get(k, default)`. -/
def dictGetD (es : List (String × PValue)) (k : String) (dflt : PValue) : PValue :=
  (dictGet es k).getD dflt

/-- Line 104: `wf = plist_dict.get("WFWorkflow") or plist_dict`.  The nested
`WFWorkflow` value is used only when present AND truthy (Python `or` falls
back on any falsy value); otherwise the document root is the workflow. -/
def locateWorkflow (plist_dict : List (String × PValue)) : List (String × PValue) :=
  match dictGet plist_dict "WFWorkflow" with
  | some v => if v.truthy then v.asDict else plist_dict
  | none => plist_dict

/-- The header line of one action (line 113):
`f"\n=== Action {i}: {action_type} ==="` where `action_type` is the
identifier field or the default literal `"UnknownAction"` (line 110).
`toStr` models Python's builtin `str` as used by the f-string. -/
def actionHeader (toStr : PValue → String) (i : Nat) (action : PValue) : String :=
  let action_type : String :=
    match dictGet action.asDict "WFWorkflowActionIdentifier" with
    | some v => toStr v
    | none => "UnknownAction"
  "\n=== Action " ++ toString i ++ ": " ++ action_type ++ " ==="

/-- The lines emitted for one action (lines 110-119): the header, then one
`key: value` line per parameter in stored order, or the literal
`"(No parameters)"` when the parameter mapping is empty or absent (the
`if params:` truthiness test on the `.get(..., {})` result). -/
def renderAction (toStr : PValue → String) (i : Nat) (action : PValue) : List String :=
  let params := (dictGetD action.asDict "WFWorkflowActionParameters" (.dict [])).asDict
  actionHeader toStr i action ::
    (if params.isEmpty then ["(No parameters)"]
     else params.map (fun kv => kv.1 ++ ": " ++ toStr kv.2))

/-- `render_action_list` (lines 102-121): locate the workflow, read its
action sequence (default empty, line 106), emit the lines of each action
with 1-based indices (`enumerate(actions, start=1)`), and join with
newlines. -/
def render_action_list (toStr : PValue → String)
    (plist_dict : List (String × PValue)) : String :=
  let wf := locateWorkflow plist_dict
  let actions := (dictGetD wf "WFWorkflowActions" (.array [])).asArray
  let output_lines := (List.enumFrom 1 actions).flatMap
    (fun ia => renderAction toStr ia.1 ia.2)
  String.intercalate "\n" output_lines

/- ## Plist decoding and per-file processing (`process_shortcut`, lines 124-155) -/

/-- `decode_plist_to_dict` (lines 88-93): delegate to the external
`plistlib.loads` (`plistLoads`), re-raising any failure as
`"Failed to decode plist: {e}"`. -/
def decode_plist_to_dict
    (plistLoads : List Nat → Except String (List (String × PValue)))
    (plist_bytes : List Nat) : Except String (List (String × PValue)) :=
  match plistLoads plist_bytes with
  | .ok d => .ok d
  | .error e => .error ("Failed to decode plist: " ++ e)

/-- The payload-selection step of `process_shortcut` (lines 127-134): try
the CMS extractor; on any failure try the AEA1 extractor; if both fail,
report both exception messages. -/
def dispatch_payload
    (cmsLoad : List Nat → Except String ContentInfo)
    (lzfse : Option (List Nat → Except String (List Nat)))
    (data : List Nat) : Except (String × String) (List Nat) :=
  match extract_cms_payload cmsLoad data with
  | .ok payload => .ok payload
  | .error e =>
    match extract_aea1_lzfse_payload lzfse data with
    | .ok payload => .ok payload
    | .error e2 => .error (e.message, e2.message)

/-- The observable outcome of processing one file: every failure is caught
and reported (lines 129-140), never propagated; on success the requested
outputs are produced (lines 145-155), with the rendered action text recorded
when requested. -/
inductive FileOutcome where
  | fileNotFound
  | extractionFailed (cmsMsg aeaMsg : String)
  | decodeFailed (msg : String)
  | success (xmlWritten : Bool) (actionsText : Option String)
deriving DecidableEq

/-- Whether the file produced its output set. -/
def FileOutcome.isSuccess : FileOutcome → Bool
  | .success _ _ => true
  | _ => false

/-- `process_shortcut` (lines 124-155): extraction dispatch, plist decode,
then the requested outputs. -/
def process_shortcut
    (cmsLoad : List Nat → Except String ContentInfo)
    (lzfse : Option (List Nat → Except String (List Nat)))
    (plistLoads : List Nat → Except String (List (String × PValue)))
    (toStr : PValue → String)
    (do_xml do_actions : Bool)
    (data : List Nat) : FileOutcome :=
  match dispatch_payload cmsLoad lzfse data with
  | .error (e, e2) => .extractionFailed e e2
  | .ok payload =>
    match decode_plist_to_dict plistLoads payload with
    | .error e => .decodeFailed e
    | .ok plist_dict =>
      .success do_xml
        (if do_actions then some (render_action_list toStr plist_dict) else none)

/- ## Batch orchestration (`main`, lines 189-199) -/

/-- One input path of a batch run: whether `path.exists()` holds, and the
bytes read from it when it does. -/
structure InputFile where
  onDisk : Bool
  bytes : List Nat

/-- The body of the `for file_path in args.files` loop (lines 189-199):
missing files are reported and skipped, others are processed. -/
def processFile
    (cmsLoad : List Nat → Except String ContentInfo)
    (lzfse : Option (List Nat → Except String (List Nat)))
    (plistLoads : List Nat → Except String (List (String × PValue)))
    (toStr : PValue → String)
    (do_xml do_actions : Bool)
    (f : InputFile) : FileOutcome :=
  if f.onDisk then
    process_shortcut cmsLoad lzfse plistLoads toStr do_xml do_actions f.bytes
  else
    .fileNotFound

/-- The batch loop of `main` (lines 189-199): every file is processed in
order; a file's failure outcome is recorded and the loop continues. -/
def run_batch
    (cmsLoad : List Nat → Except String ContentInfo)
    (lzfse : Option (List Nat → Except String (List Nat)))
    (plistLoads : List Nat → Except String (List (String × PValue)))
    (toStr : PValue → String)
    (do_xml do_actions : Bool)
    (files : List InputFile) : List FileOutcome :=
  files.map (processFile cmsLoad lzfse plistLoads toStr do_xml do_actions)

/- ## Refinement reference and concrete fixtures -/

/-- Modelled from the spec: the workflow locator as the specification words
it — "preferring a nested field holding the workflow sub-document, falling
back to treating the document root as the workflow itself if the nested
field is absent", i.e. the nested field wins whenever it is PRESENT.
Compare with `locateWorkflow`, which is translated from line 104 of the
code. -/
def locateWorkflow_spec (plist_dict : List (String × PValue)) : List (String × PValue) :=
  match dictGet plist_dict "WFWorkflow" with
  | some v => v.asDict
  | none => plist_dict

/-- A `lzfse.decompress` stand-in whose output is exactly the plist magic. -/
def decompW : List Nat → Except String (List Nat) := fun _ => .ok BPLIST_MAGIC

/-- A `lzfse.decompress` stand-in whose output holds the plist magic at
offset 1. -/
def decompOffW : List Nat → Except String (List Nat) := fun _ => .ok (7 :: BPLIST_MAGIC)

/-- A `plistlib.loads` stand-in returning an empty dictionary. -/
def plistLoadsW : List Nat → Except String (List (String × PValue)) := fun _ => .ok []

/-- A builtin-`str` stand-in. -/
def toStrW : PValue → String := fun _ => "v"

/-- A `cms.ContentInfo.load` stand-in that always fails to parse. -/
def cmsLoadFailW : List Nat → Except String ContentInfo := fun _ => .error "parse error"

/-- A `cms.ContentInfo.load` stand-in yielding signed data with payload
`[9]`. -/
def cmsLoadOkW : List Nat → Except String ContentInfo :=
  fun _ => .ok ⟨"signed_data", ⟨⟨some [9]⟩⟩⟩

/-- A `cms.ContentInfo.load` stand-in succeeding only on the bytes `[1]`. -/
def cmsLoadBatchW : List Nat → Except String ContentInfo :=
  fun d => if d = [1] then .ok ⟨"signed_data", ⟨⟨some [9]⟩⟩⟩ else .error "parse error"

/-- A well-formed AEA1 container: magic, reserved zeros, `certLen = 0`, and
the LZFSE block magic at `payload_start = 12`. -/
def aeaDataW : List Nat := AEA1_MAGIC ++ [0, 0, 0, 0, 0, 0, 0, 0] ++ LZFSE_MAGIC

/-- An AEA1 container whose declared `certLen = 100` puts `payload_start`
(112) past the end of the 12-byte buffer. -/
def aeaTruncData : List Nat := AEA1_MAGIC ++ [0, 0, 0, 0] ++ [100, 0, 0, 0]

/-- A document whose nested `WFWorkflow` field is present but empty, while
the root carries the action sequence. -/
def nestedEmptyDoc : List (String × PValue) :=
  [("WFWorkflow", .dict []), ("WFWorkflowActions", .array [.dict []])]

/-- A document whose nested `WFWorkflow` field holds an empty action
sequence. -/
def nestedDocW : List (String × PValue) :=
  [("WFWorkflow", .dict [("WFWorkflowActions", .array [])])]

/-- An action entry with an identifier and no parameter mapping. -/
def actionNoParamsW : PValue := .dict [("WFWorkflowActionIdentifier", .str "a.b.c")]

/-- An action entry with a one-entry parameter mapping. -/
def actionWithParamsW : PValue :=
  .dict [("WFWorkflowActionParameters", .dict [("k", .str "x")])]

/-- A three-file batch whose middle file fails both extractors under
`cmsLoadBatchW`. -/
def batchFilesW : List InputFile := [⟨true, [1]⟩, ⟨true, [2]⟩, ⟨true, [1]⟩]

/- ## Properties of the byte-search primitive -/

/-- A nonempty pattern is not a prefix of the empty list. -/
theorem isPrefixOf_nil_eq_false {p : List Nat} (hp : p ≠ []) :
    p.isPrefixOf ([] : List Nat) = false := by
  cases p with
  | nil => exact absurd rfl hp
  | cons a as => rfl

theorem findFromAux_eq_some {d p : List Nat} :
    ∀ {fuel i j : Nat}, findFromAux d p i fuel = some j →
      i ≤ j ∧ p.isPrefixOf (d.drop j) = true ∧
        ∀ k, i ≤ k → k < j → p.isPrefixOf (d.drop k) = false := by
  intro fuel
  induction fuel with
  | zero => intro i j h; simp [findFromAux] at h
  | succ n ih =>
    intro i j h
    by_cases hp : p.isPrefixOf (d.drop i) = true
    · rw [findFromAux, if_pos hp] at h
      cases h
      exact ⟨Nat.le_refl _, hp,
        fun k hik hki => absurd (Nat.lt_of_le_of_lt hik hki) (Nat.lt_irrefl _)⟩
    · rw [findFromAux, if_neg hp] at h
      obtain ⟨h1, h2, h3⟩ := ih h
      refine ⟨Nat.le_trans (Nat.le_succ i) h1, h2, fun k hik hkj => ?_⟩
      rcases Nat.eq_or_lt_of_le hik with rfl | hlt
      · exact Bool.eq_false_iff.mpr hp
      · exact h3 k hlt hkj

theorem findFromAux_eq_none {d p : List Nat} :
    ∀ {fuel i : Nat}, findFromAux d p i fuel = none →
      ∀ k, i ≤ k → k < i + fuel → p.isPrefixOf (d.drop k) = false := by
  intro fuel
  induction fuel with
  | zero => intro i _ k hik hk; omega
  | succ n ih =>
    intro i h k hik hk
    by_cases hp : p.isPrefixOf (d.drop i) = true
    · rw [findFromAux, if_pos hp] at h; exact absurd h (by simp)
    · rw [findFromAux, if_neg hp] at h
      rcases Nat.eq_or_lt_of_le hik with rfl | hlt
      · exact Bool.eq_false_iff.mpr hp
      · exact ih h k hlt (by omega)

/-- `findFrom` returns an occurrence at or after `start`, and none exists
before it. -/
theorem findFrom_eq_some {d p : List Nat} {s j : Nat}
    (h : findFrom d p s = some j) :
    s ≤ j ∧ p.isPrefixOf (d.drop j) = true ∧
      ∀ k, s ≤ k → k < j → p.isPrefixOf (d.drop k) = false := by
  unfold findFrom at h
  by_cases hs : s ≤ d.length
  · rw [if_pos hs] at h; exact findFromAux_eq_some h
  · rw [if_neg hs] at h; exact absurd h (by simp)

/-- When `findFrom` fails, a nonempty pattern occurs nowhere at or after
`start`. -/
theorem findFrom_eq_none {d p : List Nat} {s : Nat} (hp : p ≠ [])
    (h : findFrom d p s = none) :
    ∀ k, s ≤ k → p.isPrefixOf (d.drop k) = false := by
  intro k hsk
  by_cases hk : d.length < k
  · rw [List.drop_eq_nil_of_le (Nat.le_of_lt hk)]
    exact isPrefixOf_nil_eq_false hp
  · unfold findFrom at h
    by_cases hs : s ≤ d.length
    · rw [if_pos hs] at h
      exact findFromAux_eq_none h k hsk (by omega)
    · omega

/-- Positions past the end can never be found: models Python's
`bytes.find(pat, start)` returning `-1` when `start` is beyond the buffer. -/
theorem findFrom_of_start_gt {d p : List Nat} {s : Nat} (h : d.length < s) :
    findFrom d p s = none := by
  unfold findFrom
  rw [if_neg (Nat.not_le.mpr h)]

/- ## Claim theorems -/

/-- C1: for every CMS-wrapped input whose parsed content type is the
signed-data identifier, `extract_cms_payload` returns exactly the bytes of
the encapsulated-content field when it is present, with no transformation,
and fails with `EmptyEncapsulatedContent` when it is absent. -/
theorem cms_payload_verbatim
    (cmsLoad : List Nat → Except String ContentInfo)
    (data : List Nat) (ci : ContentInfo)
    (hload : cmsLoad data = .ok ci)
    (htype : ci.content_type = "signed_data") :
    (∀ bs, ci.content.encap_content_info.content = some bs →
      extract_cms_payload cmsLoad data = .ok bs) ∧
    (ci.content.encap_content_info.content = none →
      extract_cms_payload cmsLoad data = .error .emptyEncapsulatedContent) := by
  constructor
  · intro bs hbs
    simp [extract_cms_payload, hload, htype, hbs]
  · intro hnone
    simp [extract_cms_payload, hload, htype, hnone]

theorem cms_payload_verbatim_witness :
    extract_cms_payload cmsLoadOkW [] = .ok [9] ∧
    extract_cms_payload cmsLoadFailW [] = .error (.malformedAsn1 "parse error") ∧
    extract_cms_payload (fun _ => .ok ⟨"signed_data", ⟨⟨none⟩⟩⟩) [] =
      .error .emptyEncapsulatedContent :=
  ⟨(cms_payload_verbatim cmsLoadOkW [] ⟨"signed_data", ⟨⟨some [9]⟩⟩⟩ rfl rfl).1 [9] rfl,
   rfl,
   (cms_payload_verbatim (fun _ => .ok ⟨"signed_data", ⟨⟨none⟩⟩⟩) []
      ⟨"signed_data", ⟨⟨none⟩⟩⟩ rfl rfl).2 rfl⟩

/-- C3: the dispatcher resolves via the CMS extractor first: whenever the
CMS extractor succeeds its payload is the result (whatever the sealed
extractor would do), and the sealed extractor's result is consulted exactly
when the CMS extractor fails. -/
theorem dispatch_cms_first
    (cmsLoad : List Nat → Except String ContentInfo)
    (lzfse : Option (List Nat → Except String (List Nat)))
    (data : List Nat) :
    (∀ p, extract_cms_payload cmsLoad data = .ok p →
      dispatch_payload cmsLoad lzfse data = .ok p) ∧
    (∀ e, extract_cms_payload cmsLoad data = .error e →
      dispatch_payload cmsLoad lzfse data =
        match extract_aea1_lzfse_payload lzfse data with
        | .ok p => .ok p
        | .error e2 => .error (e.message, e2.message)) := by
  constructor
  · intro p hp
    simp [dispatch_payload, hp]
  · intro e he
    simp [dispatch_payload, he]

/-- Both leading checks succeed on `aeaDataW` under `cmsLoadOkW` (the sealed
extractor alone would return the decompressed plist suffix), yet the
dispatcher returns the CMS payload `[9]`. -/
theorem dispatch_cms_first_witness :
    dispatch_payload cmsLoadOkW (some decompW) aeaDataW = .ok [9] ∧
    extract_aea1_lzfse_payload (some decompW) aeaDataW = .ok BPLIST_MAGIC :=
  ⟨(dispatch_cms_first cmsLoadOkW (some decompW) aeaDataW).1 [9] rfl, rfl⟩

/-- C4: when both extractors fail, `process_shortcut` reports an aggregate
extraction failure carrying both underlying exception messages; it is a
returned outcome, not a crash, and no payload is produced. -/
theorem process_shortcut_reports_both_errors
    (cmsLoad : List Nat → Except String ContentInfo)
    (lzfse : Option (List Nat → Except String (List Nat)))
    (plistLoads : List Nat → Except String (List (String × PValue)))
    (toStr : PValue → String)
    (do_xml do_actions : Bool)
    (data : List Nat) (e : CmsError) (e2 : AeaError)
    (h1 : extract_cms_payload cmsLoad data = .error e)
    (h2 : extract_aea1_lzfse_payload lzfse data = .error e2) :
    process_shortcut cmsLoad lzfse plistLoads toStr do_xml do_actions data =
      .extractionFailed e.message e2.message := by
  simp [process_shortcut, dispatch_payload, h1, h2]

theorem process_shortcut_reports_both_errors_witness :
    process_shortcut cmsLoadFailW (some decompW) plistLoadsW toStrW true true [1, 2, 3] =
      .extractionFailed "parse error" "Not an AEA1/LZFSE shortcut" :=
  process_shortcut_reports_both_errors cmsLoadFailW (some decompW) plistLoadsW toStrW
    true true [1, 2, 3] (.malformedAsn1 "parse error") .notSealedArchiveFormat rfl rfl

/-- C9: when the `lzfse` module is unavailable, the sealed-archive extractor
fails with the missing-dependency error on every input — the availability
check precedes the leading-magic check — so no input ever fails with
`notSealedArchiveFormat` in that deployment. -/
theorem aea1_missing_lzfse_always_missing_dependency :
    ∀ data : List Nat,
      extract_aea1_lzfse_payload none data = .error AeaError.missingDependency ∧
      (extract_aea1_lzfse_payload none data =
        .error AeaError.notSealedArchiveFormat) = False := by
  intro data
  refine ⟨rfl, eq_false ?_⟩
  intro h
  rw [show extract_aea1_lzfse_payload none data = .error AeaError.missingDependency from rfl] at h
  simp at h

/-- C2: for every sealed-archive input that reaches decompression, the
extractor returns the suffix of the decompressed buffer starting exactly at
the first occurrence of the 8-byte plist magic (the magic is a prefix of
the result and occurs nowhere earlier), and fails with
`embeddedDocumentNotFound` when the magic is absent from the decompressed
bytes. -/
theorem aea1_payload_at_first_plist_magic
    (decompress : List Nat → Except String (List Nat))
    (data dec : List Nat) (m : Nat)
    (hmagic : AEA1_MAGIC.isPrefixOf data = true)
    (hfind : findFrom data LZFSE_MAGIC (aeaPayloadStart data) = some m)
    (hdec : decompress (data.drop m) = .ok dec) :
    (∀ j, findFrom dec BPLIST_MAGIC 0 = some j →
      extract_aea1_lzfse_payload (some decompress) data = .ok (dec.drop j) ∧
      BPLIST_MAGIC.isPrefixOf (dec.drop j) = true ∧
      ∀ i, i < j → BPLIST_MAGIC.isPrefixOf (dec.drop i) = false) ∧
    (findFrom dec BPLIST_MAGIC 0 = none →
      extract_aea1_lzfse_payload (some decompress) data =
        .error .embeddedDocumentNotFound ∧
      ∀ i, BPLIST_MAGIC.isPrefixOf (dec.drop i) = false) := by
  constructor
  · intro j hj
    obtain ⟨-, hpre, hmin⟩ := findFrom_eq_some hj
    refine ⟨?_, hpre, fun i hij => hmin i (Nat.zero_le i) hij⟩
    simp [extract_aea1_lzfse_payload, hmagic, hfind, hdec, hj]
  · intro hnone
    refine ⟨?_, fun i => findFrom_eq_none (by simp [BPLIST_MAGIC]) hnone i (Nat.zero_le i)⟩
    simp [extract_aea1_lzfse_payload, hmagic, hfind, hdec, hnone]

/-- The payload starts exactly at the plist magic (offset 1 of the
decompressed buffer), no bytes dropped or duplicated. -/
theorem aea1_payload_at_first_plist_magic_witness :
    extract_aea1_lzfse_payload (some decompOffW) aeaDataW = .ok ((7 :: BPLIST_MAGIC).drop 1) ∧
    extract_aea1_lzfse_payload (some (fun _ => .ok [1, 2, 3])) aeaDataW =
      .error .embeddedDocumentNotFound :=
  ⟨((aea1_payload_at_first_plist_magic decompOffW aeaDataW (7 :: BPLIST_MAGIC) 12
      (by decide) (by decide) rfl).1 1 (by decide)).1,
   ((aea1_payload_at_first_plist_magic (fun _ => .ok [1, 2, 3]) aeaDataW [1, 2, 3] 12
      (by decide) (by decide) rfl).2 (by decide)).1⟩

/-- C5 counterexample: on a 12-byte AEA1 container declaring `certLen = 100`
(`payload_start = 112` exceeds the buffer length), the extractor fails with
`compressedBlockNotFound` — the "LZFSE section not found" error — and not
with a `truncatedHeader` error: the code has no truncated-header check. -/
theorem aea1_truncated_header_cex :
    extract_aea1_lzfse_payload (some decompW) aeaTruncData =
      .error .compressedBlockNotFound ∧
    (extract_aea1_lzfse_payload (some decompW) aeaTruncData =
      .error .truncatedHeader) = False := by
  refine ⟨rfl, eq_false ?_⟩
  intro h
  rw [show extract_aea1_lzfse_payload (some decompW) aeaTruncData =
      .error .compressedBlockNotFound from rfl] at h
  simp at h

/-- C5 (amended): for every AEA1-prefixed input whose
`payload_start = 12 + certLen` exceeds the buffer length, the extractor
fails with the `compressedBlockNotFound` error (the forward scan for the
LZFSE block magic starts past the end and finds nothing). -/
theorem aea1_payload_start_past_end
    (decompress : List Nat → Except String (List Nat))
    (data : List Nat)
    (hmagic : AEA1_MAGIC.isPrefixOf data = true)
    (hlen : data.length < aeaPayloadStart data) :
    extract_aea1_lzfse_payload (some decompress) data =
      .error .compressedBlockNotFound := by
  simp [extract_aea1_lzfse_payload, hmagic, findFrom_of_start_gt hlen]

theorem aea1_payload_start_past_end_witness :
    extract_aea1_lzfse_payload (some decompOffW) aeaTruncData =
      .error .compressedBlockNotFound :=
  aea1_payload_start_past_end decompOffW aeaTruncData (by decide) (by decide)

/-- C6 counterexample: in `nestedEmptyDoc` the nested `WFWorkflow` field is
present (an empty dictionary), yet the code's locator keeps the document
root — Python's `or` falls back on any falsy value — and the renderer then
renders the root's action sequence, whereas the claimed nested-wins-if-
present locator (`locateWorkflow_spec`) yields the empty nested workflow. -/
theorem nested_workflow_present_cex :
    dictGet nestedEmptyDoc "WFWorkflow" = some (.dict []) ∧
    locateWorkflow nestedEmptyDoc = nestedEmptyDoc ∧
    locateWorkflow_spec nestedEmptyDoc = [] ∧
    render_action_list toStrW nestedEmptyDoc =
      "\n=== Action 1: UnknownAction ===\n(No parameters)" :=
  ⟨rfl, rfl, rfl, rfl⟩

/-- C6 (amended): the renderer's locator (`locateWorkflow`, used by
`render_action_list`) uses the nested `WFWorkflow` field only when it is
present AND truthy (a non-empty dictionary); when it is absent OR falsy
(e.g. an empty dictionary), the document root is treated as the workflow. -/
theorem nested_workflow_truthy_precedence (plist_dict : List (String × PValue)) :
    (∀ es, dictGet plist_dict "WFWorkflow" = some (.dict es) → es.isEmpty = false →
      locateWorkflow plist_dict = es) ∧
    (∀ v, dictGet plist_dict "WFWorkflow" = some v → v.truthy = false →
      locateWorkflow plist_dict = plist_dict) ∧
    (dictGet plist_dict "WFWorkflow" = none →
      locateWorkflow plist_dict = plist_dict) := by
  refine ⟨?_, ?_, ?_⟩
  · intro es h he
    simp [locateWorkflow, h, PValue.truthy, PValue.asDict, he]
  · intro v h hv
    simp [locateWorkflow, h, hv]
  · intro h
    simp [locateWorkflow, h]

theorem nested_workflow_truthy_precedence_witness :
    locateWorkflow nestedDocW = [("WFWorkflowActions", PValue.array [])] ∧
    locateWorkflow nestedEmptyDoc = nestedEmptyDoc ∧
    locateWorkflow [] = [] :=
  ⟨(nested_workflow_truthy_precedence nestedDocW).1
      [("WFWorkflowActions", PValue.array [])] rfl rfl,
   (nested_workflow_truthy_precedence nestedEmptyDoc).2.1 (.dict []) rfl rfl,
   (nested_workflow_truthy_precedence []).2.2 rfl⟩

/-- C7: an action whose parameter mapping is absent or empty renders its
header followed by exactly one parameter line, the literal
`"(No parameters)"`; an action with a non-empty parameter mapping renders
one `key: value` line per entry, in the mapping's stored order. -/
theorem action_parameter_lines (toStr : PValue → String) (i : Nat) (a : PValue) :
    ((dictGet a.asDict "WFWorkflowActionParameters" = none ∨
      dictGet a.asDict "WFWorkflowActionParameters" = some (.dict [])) →
      renderAction toStr i a = [actionHeader toStr i a, "(No parameters)"]) ∧
    (∀ es, dictGet a.asDict "WFWorkflowActionParameters" = some (.dict es) →
      es.isEmpty = false →
      renderAction toStr i a =
        actionHeader toStr i a :: es.map (fun kv => kv.1 ++ ": " ++ toStr kv.2)) := by
  constructor
  · rintro (h | h) <;> (simp only [renderAction, dictGetD, h]; rfl)
  · intro es h he
    have hes : ((dictGet a.asDict "WFWorkflowActionParameters").getD (.dict [])).asDict = es := by
      rw [h]; rfl
    simp only [renderAction, dictGetD, hes, he, Bool.false_eq_true, if_false]

theorem action_parameter_lines_witness :
    renderAction toStrW 1 actionNoParamsW =
      [actionHeader toStrW 1 actionNoParamsW, "(No parameters)"] ∧
    renderAction toStrW 2 actionWithParamsW =
      actionHeader toStrW 2 actionWithParamsW ::
        [("k", PValue.str "x")].map (fun kv => kv.1 ++ ": " ++ toStrW kv.2) :=
  ⟨(action_parameter_lines toStrW 1 actionNoParamsW).1 (Or.inl rfl),
   (action_parameter_lines toStrW 2 actionWithParamsW).2 [("k", .str "x")] rfl rfl⟩

/-- C10: when the located workflow's action sequence is absent or empty,
`render_action_list` returns the empty string — zero lines, no separator
and no header. -/
theorem render_empty_actions_empty_string (toStr : PValue → String)
    (plist_dict : List (String × PValue))
    (h : dictGet (locateWorkflow plist_dict) "WFWorkflowActions" = none ∨
         dictGet (locateWorkflow plist_dict) "WFWorkflowActions" = some (.array [])) :
    render_action_list toStr plist_dict = "" := by
  rcases h with h | h <;>
    simp [render_action_list, dictGetD, h, PValue.asArray, List.enumFrom,
      String.intercalate]

theorem render_empty_actions_empty_string_witness :
    render_action_list toStrW [] = "" ∧
    render_action_list toStrW [("WFWorkflowActions", PValue.array [])] = "" :=
  ⟨render_empty_actions_empty_string toStrW [] (Or.inl rfl),
   render_empty_actions_empty_string toStrW [("WFWorkflowActions", PValue.array [])]
     (Or.inr rfl)⟩

/-- Counting helper: if exactly the element at index `k` fails a predicate,
the count of passing elements is the length minus one. -/
theorem countP_eq_length_sub_one {α : Type} (p : α → Bool) :
    ∀ (l : List α) (k : Nat) (hk : k < l.length),
      p (l.get ⟨k, hk⟩) = false →
      (∀ i (hi : i < l.length), i ≠ k → p (l.get ⟨i, hi⟩) = true) →
      l.countP p = l.length - 1 := by
  intro l
  induction l with
  | nil => intro k hk; exact absurd hk (Nat.not_lt_zero k)
  | cons x xs ih =>
    intro k hk hfail hsucc
    cases k with
    | zero =>
      have hx : p x = false := hfail
      have hxs : ∀ a ∈ xs, p a = true := by
        intro a ha
        obtain ⟨i, rfl⟩ := List.mem_iff_get.mp ha
        exact hsucc (i.val + 1) (Nat.succ_lt_succ i.isLt) (Nat.succ_ne_zero _)
      rw [List.countP_cons_of_neg p xs (by simp [hx]),
        List.countP_eq_length.mpr hxs, List.length_cons]
      omega
    | succ k =>
      have hx : p x = true := hsucc 0 (Nat.succ_pos _) (by omega)
      have hk2 : k < xs.length := Nat.lt_of_succ_lt_succ hk
      have hcount : xs.countP p = xs.length - 1 := by
        refine ih k hk2 hfail (fun i hi hik => ?_)
        exact hsucc (i + 1) (Nat.succ_lt_succ hi) (by omega)
      rw [List.countP_cons_of_pos p xs hx, hcount, List.length_cons]
      omega

/-- C8: in a batch where the file at index `k` fails (extraction, decoding,
or a missing file) and every other file succeeds, the batch loop still
produces one outcome per input in order: the failure is reported at index
`k`, every other file — including each file after `k` — is processed to its
successful output set, and exactly `N - 1` files succeed. -/
theorem run_batch_isolates_failure
    (cmsLoad : List Nat → Except String ContentInfo)
    (lzfse : Option (List Nat → Except String (List Nat)))
    (plistLoads : List Nat → Except String (List (String × PValue)))
    (toStr : PValue → String)
    (do_xml do_actions : Bool)
    (files : List InputFile) (k : Nat) (hk : k < files.length)
    (hfail : (processFile cmsLoad lzfse plistLoads toStr do_xml do_actions
      (files.get ⟨k, hk⟩)).isSuccess = false)
    (hsucc : ∀ i (hi : i < files.length), i ≠ k →
      (processFile cmsLoad lzfse plistLoads toStr do_xml do_actions
        (files.get ⟨i, hi⟩)).isSuccess = true) :
    (run_batch cmsLoad lzfse plistLoads toStr do_xml do_actions files).length =
      files.length ∧
    (∀ i (hi : i < files.length) (hi2 : i <
        (run_batch cmsLoad lzfse plistLoads toStr do_xml do_actions files).length),
      (run_batch cmsLoad lzfse plistLoads toStr do_xml do_actions files).get ⟨i, hi2⟩ =
        processFile cmsLoad lzfse plistLoads toStr do_xml do_actions
          (files.get ⟨i, hi⟩)) ∧
    (run_batch cmsLoad lzfse plistLoads toStr do_xml do_actions files).countP
      FileOutcome.isSuccess = files.length - 1 := by
  refine ⟨List.length_map _ _, fun i hi hi2 => ?_, ?_⟩
  · simp [run_batch, List.get_eq_getElem, List.getElem_map]
  · rw [run_batch, List.countP_map]
    exact countP_eq_length_sub_one _ files k hk hfail hsucc

/-- A batch of three files whose middle file matches neither wrapper: three
outcomes, the middle one an aggregate extraction failure, two successes. -/
theorem run_batch_isolates_failure_witness :
    (run_batch cmsLoadBatchW (some decompW) plistLoadsW toStrW true true
      batchFilesW).length = 3 ∧
    (run_batch cmsLoadBatchW (some decompW) plistLoadsW toStrW true true
      batchFilesW).countP FileOutcome.isSuccess = 2 ∧
    run_batch cmsLoadBatchW (some decompW) plistLoadsW toStrW true true batchFilesW =
      [.success true (some ""),
       .extractionFailed "parse error" "Not an AEA1/LZFSE shortcut",
       .success true (some "")] := by
  have h := run_batch_isolates_failure cmsLoadBatchW (some decompW) plistLoadsW toStrW
    true true batchFilesW 1 (by decide) (by decide) (by decide)
  exact ⟨h.1, h.2.2, by decide⟩
